import Mathlib

/-!
Shallow embedding of the theater-booking repository's seat-reservation core
(`movie/utils.py`, `movie/views.py`, `movie/serializers.py`, `movie/constants.py`).

Database rows are Lean structures; the Django ORM queries used by the embedded
functions are translated to list operations over an explicit `DB` value, and the
Django cache is an explicit association list keyed by `(show_id, show_date)`
whose values model the cached availability QuerySets: a pickled QuerySet keeps
both its baked query and a result snapshot, and consulting it through
`values_list` re-executes the query against the live database.
Dates are modelled as day indices (`Nat`) and clock instants as minutes since
epoch (`Nat`), with 1440 minutes per day; `now.date()` becomes `now / 1440` and
`datetime.combine(show_date, start_time)` becomes `show_date * 1440 + start_time`.
Prices are `Nat`.  Cache time-to-live values are recorded as constants but the
traces studied here never advance the clock past an expiry, so expiry itself is
not modelled.
-/

deriving instance DecidableEq for Except

namespace Theater

/-- Constants from `movie/constants.py`. -/
def MIN_SEATS_PER_BOOKING : Nat := 1

def MAX_SEATS_PER_BOOKING : Nat := 10

def MIN_BOOKING_HOURS_BEFORE : Nat := 2

def SHOW_CACHE_TIMEOUT : Nat := 1800

/-- Seat-type configuration dict from `movie/types.py` (`SeatTypeDict`). -/
structure SeatTypeDict where
  seat_type : String
  rows : Nat
  columns : Nat
  order : Nat
deriving Repr, DecidableEq

/-- `movie.models.Screen` row. Modelled from the spec: `models.py` is not part of
the provided sources; fields follow spec section 3 (**Screen**: identifier,
screen_number, total_seat_count) and the accesses in `utils.py`/`serializers.py`
(`screen.total_seat`, `screen.screen_number`, `screen.id`). -/
structure Screen where
  id : Nat
  screen_number : Nat
  total_seat : Nat
deriving Repr, DecidableEq

/-- `movie.models.ScreenSeatTypesMapping` row. Modelled from the spec:
`models.py` is absent; fields follow spec section 3 (**SeatTypeMapping**: belongs
to one Screen, type label) and the accesses `screen_seat.seat_type`,
`ScreenSeatTypesMapping.objects.create(screen=..., seat_type=...)` in
`utils.py`. -/
structure ScreenSeatTypesMapping where
  id : Nat
  screen_id : Nat
  seat_type : String
deriving Repr, DecidableEq

/-- `movie.models.Seat` row. Modelled from the spec: `models.py` is absent;
fields follow spec section 3 (**Seat**: belongs to one SeatTypeMapping, row,
column, seat_number) and `Seat.objects.create(seat_number=..., row=..., col=...,
type=...)` in `utils.py`; `type_id` is the `type` foreign key. -/
structure Seat where
  id : Nat
  seat_number : String
  row : Nat
  col : Nat
  type_id : Nat
deriving Repr, DecidableEq

/-- `movie.models.ShowDetail` row. Modelled from the spec: `models.py` is
absent; fields follow spec section 3 (**ShowDetail**) and the accesses in
`utils.py`/`serializers.py` (`show.start_time`, `show.id`, `start_date`,
`end_date`, denormalized `available_seats`). -/
structure ShowDetail where
  id : Nat
  movie_id : Nat
  screen_id : Nat
  start_time : Nat
  end_time : Nat
  start_date : Nat
  end_date : Nat
  available_seats : Nat
deriving Repr, DecidableEq

/-- `movie.models.ShowSeatPrice` row. Modelled from the spec: `models.py` is
absent; fields follow spec section 3 (**ShowPrice**: one ShowDetail, a seat
type, a price); `seat_type` holds the label of the referenced seat-type mapping
(the code reads it as `p.seat_type.seat_type`). -/
structure ShowSeatPrice where
  id : Nat
  show_detail_id : Nat
  seat_type : String
  price : Nat
deriving Repr, DecidableEq

/-- `movie.models.BookedShowDetail` row. Modelled from the spec: `models.py` is
absent; fields follow spec section 3 (**BookedShowDetail**: one row per
(ShowDetail, date), per-date `available_seats`) and
`BookedShowDetail.objects.create(show_detail=..., show_date=...,
available_seats=...)` in `serializers.py`. -/
structure BookedShowDetail where
  id : Nat
  show_detail_id : Nat
  show_date : Nat
  available_seats : Nat
deriving Repr, DecidableEq

/-- `movie.models.Booking` row. Modelled from the spec: `models.py` is absent;
fields follow spec section 3 (**Booking**) and the creation sites: the booking
view creates it with `user`, `showtime`, `total_amount` and then
`booking.seats.set(seats)`, while the repository's own test helper additionally
passes `booked_show=` (a foreign key to `BookedShowDetail`), so `booked_show_id`
is optional and the production path leaves it unset. -/
structure Booking where
  id : Nat
  user_id : Nat
  showtime_id : Nat
  booked_show_id : Option Nat
  seats : List Nat
  total_amount : Nat
deriving Repr, DecidableEq

/-- The relational store: one list per table, plus a fresh-id counter standing
in for the database's id sequence. -/
structure DB where
  screens : List Screen
  seatTypes : List ScreenSeatTypesMapping
  seats : List Seat
  shows : List ShowDetail
  showPrices : List ShowSeatPrice
  bookedShowDetails : List BookedShowDetail
  bookings : List Booking
  nextId : Nat
deriving Repr, DecidableEq

/-- The object `get_available_seats` returns and caches: a Django
`QuerySet[Seat]` for the availability query of one (show, date) key.
`show_id` and `show_date` are baked into the query's `exclude(id__in=...)`
subquery; `snapshot` holds the seat ids of the pickled `_result_cache`
(pickling a lazy QuerySet for `cache.set` forces its evaluation).  Direct
iteration of the object yields `snapshot`, but a clone-based consultation such
as `values_list` discards the result cache and re-executes the baked query
against the live database (`values_list_id`). -/
structure SeatQuerySet where
  show_id : Nat
  show_date : Nat
  snapshot : List Nat
deriving Repr, DecidableEq

/-- Full system state: database plus the Django cache of availability
QuerySets, keyed by `(show_id, show_date)` (the code builds the string cache
key from exactly these two values). -/
structure Sys where
  db : DB
  cache : List ((Nat × Nat) × SeatQuerySet)
deriving Repr, DecidableEq

/-- `cache.get(key)`. -/
def cache_get (c : List ((Nat × Nat) × SeatQuerySet)) (k : Nat × Nat) :
    Option SeatQuerySet :=
  (c.find? (fun e => decide (e.1 = k))).map (fun e => e.2)

/-- `cache.set(key, value, timeout)` (the timeout is recorded by the caller but
never reached in the traces considered here). -/
def cache_set (c : List ((Nat × Nat) × SeatQuerySet)) (k : Nat × Nat) (v : SeatQuerySet) :
    List ((Nat × Nat) × SeatQuerySet) :=
  (k, v) :: c.filter (fun e => !(decide (e.1 = k)))

/-- The booked-seat subquery of `get_available_seats` (`movie/utils.py` lines
148-150): `Booking.objects.filter(showtime_id=show_id,
booked_show__show_date=show_date).values_list("seats", flat=True)`.  The
`booked_show__show_date` lookup is an inner join through the `booked_show`
foreign key, so bookings with a null `booked_show` never match. -/
def booked_seat_ids_for_key (db : DB) (show_id show_date : Nat) : List Nat :=
  (db.bookings.filter (fun b =>
      decide (b.showtime_id = show_id) &&
      (match b.booked_show_id with
       | some bsid =>
           db.bookedShowDetails.any (fun r =>
             decide (r.id = bsid) && decide (r.show_date = show_date))
       | none => false))).flatMap (fun b => b.seats)

/-- The seat ids yielded by evaluating the availability query
`Seat.objects.exclude(id__in=booked_seats)` of one (show, date) key against a
database state: every seat in the database (not restricted to any screen)
minus the booked ones. -/
def availability_ids (db : DB) (show_id show_date : Nat) : List Nat :=
  let booked := booked_seat_ids_for_key db show_id show_date
  (db.seats.filter (fun s => !(booked.contains s.id))).map (fun s => s.id)

/-- `qs.values_list("id", flat=True)` consultation of an availability QuerySet:
`values_list` clones the QuerySet, the clone carries no `_result_cache`, so
membership tests against it re-execute the baked query — `booked_seats`
subquery included — against the current database, never against the pickled
snapshot. -/
def values_list_id (db : DB) (qs : SeatQuerySet) : List Nat :=
  availability_ids db qs.show_id qs.show_date

/-- `get_available_seats` (`movie/utils.py` lines 131-155): read-through cache;
on a hit it returns the cached (unpickled) QuerySet as is; on a miss it builds
the availability QuerySet for the key and caches it with `SHOW_CACHE_TIMEOUT`
(the pickling inside `cache.set` evaluates the query, fixing the snapshot at
the current database state).  Returns the QuerySet and the updated state. -/
def get_available_seats (sys : Sys) (show_id show_date : Nat) : SeatQuerySet × Sys :=
  match cache_get sys.cache (show_id, show_date) with
  | some cached => (cached, sys)
  | none =>
      let qs : SeatQuerySet :=
        { show_id := show_id, show_date := show_date,
          snapshot := availability_ids sys.db show_id show_date }
      (qs, { sys with cache := cache_set sys.cache (show_id, show_date) qs })

/-- The four validation failures of `validate_booking_request`, keyed like
`ERROR_MESSAGES` in `movie/constants.py`. -/
inductive VError where
  | invalid_seat_count
  | past_show
  | booking_window_expired
  | seats_unavailable
deriving Repr, DecidableEq

/-- `validate_booking_request` (`movie/utils.py` lines 158-186): seat-count
bounds, past-show, booking-cutoff window, then the availability check
`all(seat_id in available_seats.values_list("id", flat=True) for seat_id in
seats)`, raising on the first failing rule.  The `values_list` consultation
clones the QuerySet returned by `get_available_seats` and re-executes its
query against the live database (`values_list_id`), whether the QuerySet came
from the cache or was freshly built.  `now` is the minute instant
`timezone.now()`; the availability pre-check may populate the cache, so the
updated state is returned alongside the result. -/
def validate_booking_request (sys : Sys) (seats : List Nat) (sd : ShowDetail)
    (show_date now : Nat) : Except VError Unit × Sys :=
  if ¬ (MIN_SEATS_PER_BOOKING ≤ seats.length ∧ seats.length ≤ MAX_SEATS_PER_BOOKING) then
    (.error .invalid_seat_count, sys)
  else if show_date < now / 1440 then
    (.error .past_show, sys)
  else if (show_date * 1440 + sd.start_time : Int) - (now : Int) < 60 * MIN_BOOKING_HOURS_BEFORE then
    (.error .booking_window_expired, sys)
  else
    let res := get_available_seats sys sd.id show_date
    if ¬ (seats.all (fun seat_id => (values_list_id sys.db res.1).contains seat_id)) then
      (.error .seats_unavailable, res.2)
    else
      (.ok (), res.2)

/-- `Seat.type.seat_type` join used by `calculate_total_price`
(`"type__seat_type"`): the label of the seat's seat-type mapping row. -/
def seat_type_label (db : DB) (type_id : Nat) : String :=
  ((db.seatTypes.find? (fun m => decide (m.id = type_id))).map (fun m => m.seat_type)).getD ""

/-- `next((p.price for p in prices if p.seat_type.seat_type == seat_type), none)`
over `ShowDetail.objects.get(id=show_id).show_price_detail.all()`: the first
configured price for the given seat-type label of the given show, if any. -/
def price_lookup (db : DB) (show_id : Nat) (st : String) : Option Nat :=
  ((db.showPrices.filter (fun p => decide (p.show_detail_id = show_id))).find?
      (fun p => decide (p.seat_type = st))).map (fun p => p.price)

/-- `calculate_total_price` (`movie/utils.py` lines 223-244):
`Seat.objects.filter(id__in=seats)` yields each matching seat row once (the SQL
filter deduplicates ids), its seat-type label is looked up through the `type`
join, and prices are summed with `next(..., 0)` defaulting a missing price to
0.  The `ShowDetail.objects.get` lookup is modelled by filtering the price
table by `show_detail_id` (every claim evaluates it at an existing show). -/
def calculate_total_price (db : DB) (seats : List Nat) (show_id : Nat) : Nat :=
  let seat_types := (db.seats.filter (fun s => decide (s.id ∈ seats))).map
      (fun s => seat_type_label db s.type_id)
  seat_types.foldl (fun total st => total + (price_lookup db show_id st).getD 0) 0

/-- Sum of looked-up prices that fails (returns `none`) as soon as one lookup
is missing; helper for `calculate_total_spec`. -/
def sum_prices_spec (look : String → Option Nat) : List String → Option Nat
  | [] => some 0
  | st :: rest =>
      match look st, sum_prices_spec look rest with
      | some p, some t => some (p + t)
      | _, _ => none

/-- Modelled from the spec: section 4.5's `calculate_total(seat_ids, show_id)`
that "fails with MissingPrice if a seat type has no configured price for the
show"; the repository has no failing variant, so this definition is the
spec-side reference against which `calculate_total_price` is compared.  `none`
is the `MissingPrice` outcome. -/
def calculate_total_spec (db : DB) (seats : List Nat) (show_id : Nat) : Option Nat :=
  sum_prices_spec (price_lookup db show_id)
    ((db.seats.filter (fun s => decide (s.id ∈ seats))).map (fun s => seat_type_label db s.type_id))

/-- Failure modes of the booking endpoint that the serializer/404 layer reports
before validation runs. -/
inductive BookingError where
  | not_found
  | invalid_payload
  | validation (e : VError)
deriving Repr, DecidableEq

/-- Is the endpoint outcome a committed booking (HTTP 201)? -/
def isCommitted : Except BookingError Booking → Bool
  | .ok _ => true
  | .error _ => false

/-- `BookingViewSet.booking` (`movie/views.py` lines 188-208):
`get_object_or_404(ShowDetail, id=show_id)`; `BookingSerializer.is_valid`
(non-empty seat list whose every id names an existing `Seat` row — the
primary-key related field validates existence); `validate_booking_request`;
`calculate_total_price`; then `Booking.objects.create(user=..., showtime=...,
total_amount=...)` followed by `booking.seats.set(seats)`.  No further ledger
check is performed after validation (whose availability consultation does
re-execute its query against the live database),
`BookedShowDetail.available_seats` is not touched, `booked_show` is not set,
and no cache entry is invalidated.  Validation failures roll the transaction
back (the database is unchanged) but cache writes made inside
`get_available_seats` persist, hence the threaded state. -/
def booking (sys : Sys) (user_id show_id : Nat) (seats : List Nat)
    (show_date now : Nat) : Except BookingError Booking × Sys :=
  match sys.db.shows.find? (fun sd => decide (sd.id = show_id)) with
  | none => (.error .not_found, sys)
  | some show_detail =>
      if ¬ (seats ≠ [] ∧ seats.all (fun sid => sys.db.seats.any (fun s => decide (s.id = sid)))) then
        (.error .invalid_payload, sys)
      else
        match validate_booking_request sys seats show_detail show_date now with
        | (.error e, sys1) => (.error (.validation e), sys1)
        | (.ok _, sys1) =>
            let total_price := calculate_total_price sys1.db seats show_id
            let b : Booking :=
              { id := sys1.db.nextId, user_id := user_id, showtime_id := show_detail.id,
                booked_show_id := none, seats := seats, total_amount := total_price }
            (.ok b,
              { sys1 with
                db := { sys1.db with
                        bookings := sys1.db.bookings ++ [b],
                        nextId := sys1.db.nextId + 1 } })

/-- The remaining-seat counter of the (show, date) ledger row:
`BookedShowDetail.available_seats` for that key. -/
def remaining_for_key (db : DB) (show_id show_date : Nat) : Nat :=
  ((db.bookedShowDetails.find? (fun r =>
      decide (r.show_detail_id = show_id) && decide (r.show_date = show_date))).map
    (fun r => r.available_seats)).getD 0

/-- Seat ids referenced by committed bookings of a show, as queried by
`select_seats` (`movie/views.py` line 259):
`Booking.objects.filter(showtime=show).values_list("seats__id", flat=True)`.
Bookings carry no date of their own (the booking view stores none), so the
show id is the finest key the stored rows support. -/
def booked_seat_ids_for_show (db : DB) (show_id : Nat) : List Nat :=
  (db.bookings.filter (fun b => decide (b.showtime_id = show_id))).flatMap (fun b => b.seats)

/-- Input of `ShowDetailSerializer.save` (`movie/serializers.py` lines 157-180)
after field validation: the validated data minus the `show_prices` list, which
is popped and created row by row; each price is a (seat-type label, price)
pair. -/
structure ShowDetailInput where
  movie_id : Nat
  screen_id : Nat
  start_time : Nat
  end_time : Nat
  start_date : Nat
  end_date : Nat
  show_prices : List (String × Nat)
deriving Repr, DecidableEq

/-- `ShowDetailSerializer.validate` (`movie/serializers.py` lines 152-155):
rejects `start_date > end_date`. -/
def show_detail_validate (inp : ShowDetailInput) : Bool :=
  !(decide (inp.start_date > inp.end_date))

/-- `ShowDetailSerializer.save` (`movie/serializers.py` lines 157-180): reads
the screen's `total_seat`, creates the `ShowDetail` with that value as its
denormalized `available_seats`, creates one `ShowSeatPrice` per given price,
then one `BookedShowDetail` per `day in range((end_date - start_date).days +
1)` with `show_date = start_date + day` and the same `available_seats`.
Created price/ledger rows get id 0 (no property reads those ids); the show
takes the next fresh id. -/
def show_detail_save (db : DB) (inp : ShowDetailInput) : DB × ShowDetail :=
  let available_seats :=
    ((db.screens.find? (fun s => decide (s.id = inp.screen_id))).map (fun s => s.total_seat)).getD 0
  let sd : ShowDetail :=
    { id := db.nextId, movie_id := inp.movie_id, screen_id := inp.screen_id,
      start_time := inp.start_time, end_time := inp.end_time,
      start_date := inp.start_date, end_date := inp.end_date,
      available_seats := available_seats }
  let prices := inp.show_prices.map (fun p => ShowSeatPrice.mk 0 sd.id p.1 p.2)
  let nDays := (((inp.end_date : Int) - (inp.start_date : Int)) + 1).toNat
  let bsds := (List.range nDays).map
      (fun day => BookedShowDetail.mk 0 sd.id (inp.start_date + day) available_seats)
  ({ db with
      shows := db.shows ++ [sd],
      showPrices := db.showPrices ++ prices,
      bookedShowDetails := db.bookedShowDetails ++ bsds,
      nextId := db.nextId + 1 }, sd)

/-- The placeholder `{}` entries of `order_seat_types`' pre-sized list. -/
def emptySeatTypeDict : SeatTypeDict := { seat_type := "", rows := 0, columns := 0, order := 0 }

/-- One assignment step `seat_types_ordered[seat_type["order"] - 1] = seat_type`
of `order_seat_types`.  Indices here are `Nat`: every claim and every caller
supplies 1-based order values, where the Python index `order - 1` coincides
with the `Nat` subtraction used here. -/
def setOrder (acc : List SeatTypeDict) (st : SeatTypeDict) : List SeatTypeDict :=
  acc.set (st.order - 1) st

/-- `order_seat_types` (`movie/utils.py` lines 115-128): allocate a list of
`len(seat_types)` placeholder dicts and write each configuration at index
`order - 1`. -/
def order_seat_types (ts : List SeatTypeDict) : List SeatTypeDict :=
  ts.foldl setOrder (List.replicate ts.length emptySeatTypeDict)

/-- A `Seat` row as created by `create_screen_with_seats`, before the store
assigns it an id: `Seat.objects.create(seat_number=f"{i}{j}", row=rows + i,
col=j + 1, type=screen_seat)`. -/
structure CreatedSeat where
  seat_number : String
  row : Nat
  col : Nat
  seat_type : String
deriving Repr, DecidableEq

/-- The inner double loop of `create_screen_with_seats` for one seat-type
configuration, entered with the running row counter `rows0`:
`for i in range(rows, type_row): for j in range(type_col): Seat.objects.create(
seat_number=f"{i}{j}", row=rows + i, col=j + 1, ...)` where
`type_row = seat_type["rows"] + rows`. -/
def seats_for_type (rows0 : Nat) (st : SeatTypeDict) : List CreatedSeat :=
  ((List.range' rows0 st.rows).map (fun i =>
    (List.range st.columns).map (fun j =>
      CreatedSeat.mk (toString i ++ toString j) (rows0 + i) (j + 1) st.seat_type))).flatten

/-- The outer loop of `create_screen_with_seats`: threads the row counter
(`rows`, starting at 1) and accumulates the created seats and the
`total_seat` sum `seat_type["rows"] * seat_type["columns"]`. -/
def create_screen_loop : Nat → List SeatTypeDict → List CreatedSeat × Nat
  | _, [] => ([], 0)
  | rows0, st :: rest =>
      let these := seats_for_type rows0 st
      let next := create_screen_loop (rows0 + st.rows) rest
      (these ++ next.1, st.rows * st.columns + next.2)

/-- `create_screen_with_seats` (`movie/utils.py` lines 72-112): creates the
screen, runs the seat-creation loops starting from `rows = 1`, and saves the
screen with the accumulated `total_seat`.  The store-assigned screen id is not
read by any property and is given as 0. -/
def create_screen_with_seats (screen_number : Nat) (seat_types : List SeatTypeDict) :
    Screen × List CreatedSeat :=
  let r := create_screen_loop 1 seat_types
  ({ id := 0, screen_number := screen_number, total_seat := r.2 }, r.1)

/-! ### Concrete states used by the evaluation theorems -/

/-- A two-seat PLATINUM screen. -/
def exScreen : Screen := { id := 1, screen_number := 1, total_seat := 2 }

/-- Its seat-type mapping row. -/
def exMapping : ScreenSeatTypesMapping := { id := 1, screen_id := 1, seat_type := "PLATINUM" }

/-- Seat A of the screen. -/
def exSeat1 : Seat := { id := 1, seat_number := "11", row := 2, col := 1, type_id := 1 }

/-- Seat B of the screen. -/
def exSeat2 : Seat := { id := 2, seat_number := "12", row := 2, col := 2, type_id := 1 }

/-- A show on that screen, scheduled on day 1 at minute 600 of the day. -/
def exShow : ShowDetail :=
  { id := 1, movie_id := 1, screen_id := 1, start_time := 600, end_time := 780,
    start_date := 1, end_date := 1, available_seats := 2 }

/-- The PLATINUM price of the show. -/
def exPrice : ShowSeatPrice := { id := 1, show_detail_id := 1, seat_type := "PLATINUM", price := 100 }

/-- The ledger row for (show 1, day 1), seeded to the screen capacity. -/
def exBsd : BookedShowDetail := { id := 1, show_detail_id := 1, show_date := 1, available_seats := 2 }

/-- Freshly provisioned database: screen, two seats, one show with its price
and its (show 1, day 1) ledger row, no bookings. -/
def exDB : DB :=
  { screens := [exScreen], seatTypes := [exMapping], seats := [exSeat1, exSeat2],
    shows := [exShow], showPrices := [exPrice], bookedShowDetails := [exBsd],
    bookings := [], nextId := 2 }

/-- Fresh system state: the provisioned database with an empty cache. -/
def exSys : Sys := { db := exDB, cache := [] }

/-- A booking already committed for (show 1, day 1) holding seat 1, linked to
the ledger row the way the repository's own test helper links it
(`booked_show=` set). -/
def exBooking0 : Booking :=
  { id := 1, user_id := 9, showtime_id := 1, booked_show_id := some 1, seats := [1],
    total_amount := 100 }

/-- State in which the ledger has seat 1 booked for (show 1, day 1) while the
availability cache entry for that key has been forced to a snapshot reporting
both seats free. -/
def exSys2 : Sys :=
  { db := { exDB with bookings := [exBooking0], nextId := 2 },
    cache := [((1, 1), { show_id := 1, show_date := 1, snapshot := [1, 2] })] }

/-- A second screen with one GOLD seat, sharing the database with `exScreen`. -/
def exScreen2 : Screen := { id := 2, screen_number := 2, total_seat := 1 }

/-- Seat-type mapping of the second screen. -/
def exMapping2 : ScreenSeatTypesMapping := { id := 2, screen_id := 2, seat_type := "GOLD" }

/-- The sole seat of the second screen. -/
def exSeat3 : Seat := { id := 3, seat_number := "21", row := 2, col := 1, type_id := 2 }

/-- Two-screen database: show 1 still runs on screen 1, but the seat table also
holds screen 2's seat. -/
def exDB5 : DB :=
  { exDB with
      screens := [exScreen, exScreen2],
      seatTypes := [exMapping, exMapping2],
      seats := [exSeat1, exSeat2, exSeat3] }

/-- Two-screen system state with an empty cache. -/
def exSys5 : Sys := { db := exDB5, cache := [] }

/-! ### C1-C4: the booking path evaluated at its failing inputs -/

/-- C1: refuted on the code.  From the fresh state, two successive booking
requests for the same seat 1 on the same (show 1, day 1) key both commit: the
first request populates the availability cache, the second validates against
that now-stale cache entry (and the commit step never re-checks the ledger), so
the final database holds two distinct committed bookings whose seat sets both
contain seat 1 — the claimed invariant that each seat id appears in at most one
booking per (show, date) key fails after this two-request sequence. -/
theorem c1_double_booking_committed :
    (isCommitted (booking exSys 1 1 [1] 1 0).1 = true ∧
      isCommitted (booking (booking exSys 1 1 [1] 1 0).2 2 1 [1] 1 0).1 = true) ∧
    ((booking (booking exSys 1 1 [1] 1 0).2 2 1 [1] 1 0).2.db.bookings.map
        (fun b => (b.showtime_id, b.seats)) = [(1, [1]), (1, [1])] ∧
      ((booking (booking exSys 1 1 [1] 1 0).2 2 1 [1] 1 0).2.db.bookings.map
        (fun b => b.id)).Nodup) := by
  decide

/-- Membership in the evaluated availability query: a seat id is yielded iff
some seat row carries it and it is not booked for the key. -/
theorem mem_availability_ids (db : DB) (show_id show_date sid : Nat) :
    sid ∈ availability_ids db show_id show_date ↔
      ((∃ s ∈ db.seats, s.id = sid) ∧
        sid ∉ booked_seat_ids_for_key db show_id show_date) := by
  simp only [availability_ids, List.mem_map, List.mem_filter]
  constructor
  · rintro ⟨s, ⟨hs, hb⟩, rfl⟩
    refine ⟨⟨s, hs, rfl⟩, ?_⟩
    simpa using hb
  · rintro ⟨⟨s, hs, rfl⟩, hb⟩
    exact ⟨s, ⟨hs, by simpa using hb⟩, rfl⟩

/-- `get_available_seats` never touches the database, only the cache. -/
theorem get_available_seats_db (sys : Sys) (show_id show_date : Nat) :
    (get_available_seats sys show_id show_date).2.db = sys.db := by
  unfold get_available_seats
  cases cache_get sys.cache (show_id, show_date) <;> rfl

/-- When every cache entry's QuerySet carries the query parameters of its own
key — the invariant maintained by the code, whose only cache writer stores the
QuerySet it just built for that key — the QuerySet returned by
`get_available_seats` has the requested key baked into its query. -/
theorem get_available_seats_params (sys : Sys) (show_id show_date : Nat)
    (hcache : ∀ e ∈ sys.cache, e.2.show_id = e.1.1 ∧ e.2.show_date = e.1.2) :
    (get_available_seats sys show_id show_date).1.show_id = show_id ∧
    (get_available_seats sys show_id show_date).1.show_date = show_date := by
  unfold get_available_seats
  cases hc : cache_get sys.cache (show_id, show_date) with
  | none => exact ⟨rfl, rfl⟩
  | some qs =>
      unfold cache_get at hc
      cases hf : sys.cache.find? (fun e => decide (e.1 = (show_id, show_date))) with
      | none =>
          rw [hf] at hc
          simp at hc
      | some e =>
          rw [hf] at hc
          simp only [Option.map_some', Option.some.injEq] at hc
          have hmem := List.mem_of_find?_eq_some hf
          have hpred := List.find?_some hf
          simp only [decide_eq_true_eq] at hpred
          have hkey := hcache e hmem
          rw [hpred] at hkey
          rw [← hc]
          exact ⟨hkey.1, hkey.2⟩

/-- `validate_booking_request` never touches the database, only the cache. -/
theorem validate_booking_request_db (sys : Sys) (seats : List Nat) (sd : ShowDetail)
    (show_date now : Nat) :
    (validate_booking_request sys seats sd show_date now).2.db = sys.db := by
  by_cases h1 : (MIN_SEATS_PER_BOOKING ≤ seats.length ∧ seats.length ≤ MAX_SEATS_PER_BOOKING)
  · by_cases h2 : show_date < now / 1440
    · simp only [validate_booking_request, if_neg (not_not_intro h1), if_pos h2]
    · by_cases h3 : (show_date * 1440 + sd.start_time : Int) - (now : Int) <
          60 * MIN_BOOKING_HOURS_BEFORE
      · simp only [validate_booking_request, if_neg (not_not_intro h1), if_neg h2, if_pos h3]
      · by_cases h4 : ¬ (seats.all (fun seat_id =>
            (values_list_id sys.db (get_available_seats sys sd.id show_date).1).contains seat_id))
        · simp only [validate_booking_request, if_neg (not_not_intro h1), if_neg h2, if_neg h3,
            if_pos h4]
          exact get_available_seats_db sys sd.id show_date
        · simp only [validate_booking_request, if_neg (not_not_intro h1), if_neg h2, if_neg h3,
            if_neg h4]
          exact get_available_seats_db sys sd.id show_date
  · simp only [validate_booking_request, if_pos h1]

/-- When a requested seat is booked for the key in the authoritative store and
the three earlier rules pass, validation reports `seats_unavailable` no matter
what snapshot the cache holds: the availability consultation re-executes the
query against the live database. -/
theorem validate_seats_unavailable_of_booked (sys : Sys) (seats : List Nat) (sd : ShowDetail)
    (show_date now s : Nat)
    (hcache : ∀ e ∈ sys.cache, e.2.show_id = e.1.1 ∧ e.2.show_date = e.1.2)
    (hs : s ∈ seats)
    (hbooked : s ∈ booked_seat_ids_for_key sys.db sd.id show_date)
    (h1 : MIN_SEATS_PER_BOOKING ≤ seats.length ∧ seats.length ≤ MAX_SEATS_PER_BOOKING)
    (h2 : ¬ show_date < now / 1440)
    (h3 : ¬ ((show_date * 1440 + sd.start_time : Int) - (now : Int) <
      60 * MIN_BOOKING_HOURS_BEFORE)) :
    (validate_booking_request sys seats sd show_date now).1 = .error .seats_unavailable := by
  have hparams := get_available_seats_params sys sd.id show_date hcache
  have hnot : ¬ (seats.all (fun seat_id =>
      (values_list_id sys.db (get_available_seats sys sd.id show_date).1).contains seat_id)) := by
    intro hall
    rw [List.all_eq_true] at hall
    have hcontains := hall s hs
    simp only [values_list_id, hparams.1, hparams.2] at hcontains
    have hmem : s ∈ availability_ids sys.db sd.id show_date := by
      simpa using hcontains
    rw [mem_availability_ids] at hmem
    exact hmem.2 hbooked
  simp only [validate_booking_request, if_neg (not_not_intro h1), if_neg h2, if_neg h3,
    if_pos hnot]

/-- When a requested seat is booked for the key in the authoritative store,
validation always fails with one of the four errors — the availability rule
cannot pass because its consultation re-executes the query live. -/
theorem validate_error_of_booked (sys : Sys) (seats : List Nat) (sd : ShowDetail)
    (show_date now s : Nat)
    (hcache : ∀ e ∈ sys.cache, e.2.show_id = e.1.1 ∧ e.2.show_date = e.1.2)
    (hs : s ∈ seats)
    (hbooked : s ∈ booked_seat_ids_for_key sys.db sd.id show_date) :
    ∃ e, (validate_booking_request sys seats sd show_date now).1 = .error e := by
  by_cases h1 : (MIN_SEATS_PER_BOOKING ≤ seats.length ∧ seats.length ≤ MAX_SEATS_PER_BOOKING)
  · by_cases h2 : show_date < now / 1440
    · exact ⟨.past_show,
        by simp only [validate_booking_request, if_neg (not_not_intro h1), if_pos h2]⟩
    · by_cases h3 : (show_date * 1440 + sd.start_time : Int) - (now : Int) <
          60 * MIN_BOOKING_HOURS_BEFORE
      · exact ⟨.booking_window_expired,
          by simp only [validate_booking_request, if_neg (not_not_intro h1), if_neg h2,
            if_pos h3]⟩
      · exact ⟨.seats_unavailable,
          validate_seats_unavailable_of_booked sys seats sd show_date now s hcache hs hbooked
            h1 h2 h3⟩
  · exact ⟨.invalid_seat_count, by simp only [validate_booking_request, if_pos h1]⟩

/-- Shape of the booking endpoint when the show id does not resolve. -/
theorem booking_not_found (sys : Sys) (user_id show_id : Nat) (seats : List Nat)
    (show_date now : Nat)
    (hfind : sys.db.shows.find? (fun x => decide (x.id = show_id)) = none) :
    booking sys user_id show_id seats show_date now = (.error .not_found, sys) := by
  unfold booking
  rw [hfind]

/-- Shape of the booking endpoint when the serializer rejects the payload. -/
theorem booking_invalid_payload (sys : Sys) (user_id show_id : Nat) (seats : List Nat)
    (show_date now : Nat) (sd : ShowDetail)
    (hfind : sys.db.shows.find? (fun x => decide (x.id = show_id)) = some sd)
    (hpay : ¬ (seats ≠ [] ∧
      (seats.all (fun sid => sys.db.seats.any (fun s => decide (s.id = sid))) : Bool))) :
    booking sys user_id show_id seats show_date now = (.error .invalid_payload, sys) := by
  unfold booking
  rw [hfind]
  simp only [if_pos hpay]

/-- Shape of the booking endpoint when the payload passes and validation
fails: the validation error is forwarded and the state is validation's. -/
theorem booking_validation_error (sys : Sys) (user_id show_id : Nat) (seats : List Nat)
    (show_date now : Nat) (sd : ShowDetail) (e : VError)
    (hfind : sys.db.shows.find? (fun x => decide (x.id = show_id)) = some sd)
    (hpay : seats ≠ [] ∧
      (seats.all (fun sid => sys.db.seats.any (fun s => decide (s.id = sid))) : Bool))
    (hval : (validate_booking_request sys seats sd show_date now).1 = .error e) :
    booking sys user_id show_id seats show_date now =
      (.error (.validation e), (validate_booking_request sys seats sd show_date now).2) := by
  unfold booking
  rw [hfind]
  simp only [if_neg (not_not_intro hpay)]
  rw [show validate_booking_request sys seats sd show_date now =
      ((validate_booking_request sys seats sd show_date now).1,
        (validate_booking_request sys seats sd show_date now).2) from Prod.mk.eta.symm,
    hval]

/-- C2: the availability re-check consults the authoritative store regardless
of what the availability cache last returned.  Whenever some requested seat is
already booked for the (show, date) key in the authoritative ledger (a
committed booking linked through `booked_show` to that key's row), the booking
request never commits and creates no database row — whatever snapshots the
cache holds (`hcache` only states the structural invariant that each cached
QuerySet carries its own key's query parameters) — and as soon as the request
survives the show lookup, the payload check and the three earlier validation
rules, the reported failure is exactly `seats_unavailable`: the validator's
`values_list` consultation re-executes the availability query, booked-seats
subquery included, against the live database, so the cached snapshot can never
flip the outcome. -/
theorem c2_ledger_booked_seat_rejected (sys : Sys) (user_id show_id : Nat)
    (seats : List Nat) (show_date now s : Nat)
    (hcache : ∀ e ∈ sys.cache, e.2.show_id = e.1.1 ∧ e.2.show_date = e.1.2)
    (hs : s ∈ seats)
    (hbooked : s ∈ booked_seat_ids_for_key sys.db show_id show_date) :
    isCommitted (booking sys user_id show_id seats show_date now).1 = false ∧
    (booking sys user_id show_id seats show_date now).2.db = sys.db ∧
    (∀ sd, sys.db.shows.find? (fun x => decide (x.id = show_id)) = some sd →
      (seats.all (fun sid => sys.db.seats.any (fun x => decide (x.id = sid))) : Bool) →
      (MIN_SEATS_PER_BOOKING ≤ seats.length ∧ seats.length ≤ MAX_SEATS_PER_BOOKING) →
      ¬ show_date < now / 1440 →
      ¬ ((show_date * 1440 + sd.start_time : Int) - (now : Int) <
        60 * MIN_BOOKING_HOURS_BEFORE) →
      (booking sys user_id show_id seats show_date now).1 =
        .error (.validation .seats_unavailable)) := by
  cases hfind : sys.db.shows.find? (fun x => decide (x.id = show_id)) with
  | none =>
      have hbk := booking_not_found sys user_id show_id seats show_date now hfind
      refine ⟨by rw [hbk]; rfl, by rw [hbk], ?_⟩
      intro sd hsd
      exact Option.noConfusion hsd
  | some sd =>
      have hid : sd.id = show_id := by
        have := List.find?_some hfind
        simpa using this
      have hbooked2 : s ∈ booked_seat_ids_for_key sys.db sd.id show_date := by
        rw [hid]
        exact hbooked
      have hne : seats ≠ [] := by
        intro hnil
        rw [hnil] at hs
        cases hs
      by_cases hpay : (seats.all (fun sid => sys.db.seats.any (fun x => decide (x.id = sid))) : Bool)
      · obtain ⟨e, he⟩ := validate_error_of_booked sys seats sd show_date now s hcache hs hbooked2
        have hbk := booking_validation_error sys user_id show_id seats show_date now sd e
          hfind ⟨hne, hpay⟩ he
        have hdbv := validate_booking_request_db sys seats sd show_date now
        refine ⟨by rw [hbk]; rfl, by rw [hbk]; exact hdbv, ?_⟩
        intro sd2 hsd2 hpay2 h1 h2 h3
        injection hsd2 with h5
        subst h5
        have hvu := validate_seats_unavailable_of_booked sys seats sd show_date now s hcache hs
          hbooked2 h1 h2 h3
        rw [he] at hvu
        injection hvu with h6
        rw [hbk, h6]
      · have hbk := booking_invalid_payload sys user_id show_id seats show_date now sd hfind
          (fun hc => hpay hc.2)
        refine ⟨by rw [hbk]; rfl, by rw [hbk], ?_⟩
        intro sd2 hsd2 hpay2
        exact absurd hpay2 hpay

/-- Witness for `c2_ledger_booked_seat_rejected`: in `exSys2` seat 1 is booked
for (show 1, day 1) in the authoritative store while the cached snapshot
reports it free, and a request for seat 1 neither commits nor changes the
database, reporting `seats_unavailable` once the earlier rules pass. -/
theorem c2_ledger_booked_seat_rejected_witness :
    isCommitted (booking exSys2 5 1 [1] 1 0).1 = false ∧
    (booking exSys2 5 1 [1] 1 0).2.db = exSys2.db ∧
    (∀ sd, exSys2.db.shows.find? (fun x => decide (x.id = 1)) = some sd →
      (([1] : List Nat).all (fun sid => exSys2.db.seats.any (fun x => decide (x.id = sid))) : Bool) →
      (MIN_SEATS_PER_BOOKING ≤ ([1] : List Nat).length ∧
        ([1] : List Nat).length ≤ MAX_SEATS_PER_BOOKING) →
      ¬ (1 : Nat) < 0 / 1440 →
      ¬ (((1 : Nat) * 1440 + sd.start_time : Int) - ((0 : Nat) : Int) <
        60 * MIN_BOOKING_HOURS_BEFORE) →
      (booking exSys2 5 1 [1] 1 0).1 = .error (.validation .seats_unavailable)) :=
  c2_ledger_booked_seat_rejected exSys2 5 1 [1] 1 0 1 (by decide) (by decide) (by decide)

/-- C3: refuted on the code.  After one successful booking of seat 1 on
(show 1, day 1) from the fresh state, the ledger row's remaining count is still
2 (the booking path never decrements `BookedShowDetail.available_seats`) while
one distinct seat is booked for the key and the screen's capacity is 2, so
`remaining + |booked| = 3 ≠ 2 = total_seat`. -/
theorem c3_conservation_broken :
    remaining_for_key (booking exSys 1 1 [1] 1 0).2.db 1 1 = 2 ∧
    (booked_seat_ids_for_show (booking exSys 1 1 [1] 1 0).2.db 1).dedup.length = 1 ∧
    exScreen.total_seat = 2 ∧
    remaining_for_key (booking exSys 1 1 [1] 1 0).2.db 1 1 +
        (booked_seat_ids_for_show (booking exSys 1 1 [1] 1 0).2.db 1).dedup.length ≠
      exScreen.total_seat := by
  decide

/-- C4: refuted on the code.  A successful booking of seat 1 on (show 1, day 1)
neither invalidates nor refreshes the availability cache entry that its own
validation populated, so the availability read issued immediately afterwards
still reports seat 1 free (0 seats consumed instead of the claimed exact
count), even though a committed booking for the show holds seat 1 — and it
does so through either consultation mode: the returned QuerySet's stale
snapshot still lists seat 1, and the live `values_list` re-query also yields
seat 1 because the committed booking was stored with a null `booked_show` and
is invisible to the availability query. -/
theorem c4_stale_availability_after_commit :
    1 ∈ (get_available_seats (booking exSys 1 1 [1] 1 0).2 1 1).1.snapshot ∧
    1 ∈ values_list_id (booking exSys 1 1 [1] 1 0).2.db
        (get_available_seats (booking exSys 1 1 [1] 1 0).2 1 1).1 ∧
    (∃ b ∈ (booking exSys 1 1 [1] 1 0).2.db.bookings, b.showtime_id = 1 ∧ 1 ∈ b.seats) := by
  decide

/-! ### C5: availability on a cache miss -/

/-- C5: counterexample to the claim as stated.  On a cache miss for show 1
(which runs on screen 1), `get_available_seats` returns seat 3 as well, a seat
whose seat-type mapping belongs to screen 2: the code subtracts booked seats
from `Seat.objects` — every seat in the database — not from the show's screen's
seat set, so "every returned seat belongs to that show's screen" is false. -/
theorem c5_returns_foreign_screen_seat :
    3 ∈ (get_available_seats exSys5 1 1).1.snapshot ∧
    3 ∈ values_list_id exSys5.db (get_available_seats exSys5 1 1).1 ∧
    (∃ m ∈ exDB5.seatTypes, m.id = exSeat3.type_id ∧ m.screen_id ≠ exShow.screen_id) ∧
    (∃ sd ∈ exDB5.shows, sd.id = 1 ∧ sd.screen_id = 1) := by
  decide

/-- C5 (amended): on a cache miss, `get_available_seats(show_id, date)` returns
exactly the catalog's full seat set — all `Seat` rows, across every screen —
minus the seats booked for that (show, date) key: a seat id is among the
returned QuerySet's seats iff some seat row carries it and it is not among the
booked seat ids for the key. -/
theorem get_available_seats_on_miss (sys : Sys) (show_id show_date sid : Nat)
    (h : cache_get sys.cache (show_id, show_date) = none) :
    sid ∈ (get_available_seats sys show_id show_date).1.snapshot ↔
      ((∃ s ∈ sys.db.seats, s.id = sid) ∧
        sid ∉ booked_seat_ids_for_key sys.db show_id show_date) := by
  simp only [get_available_seats, h]
  exact mem_availability_ids sys.db show_id show_date sid

/-- Witness for `get_available_seats_on_miss`: in the two-screen state the
cache misses for (show 1, day 1) and seat 3 is returned exactly because a seat
row carries id 3 and no booking for the key holds it. -/
theorem get_available_seats_on_miss_witness :
    cache_get exSys5.cache (1, 1) = none ∧
    (3 ∈ (get_available_seats exSys5 1 1).1.snapshot ↔
      ((∃ s ∈ exSys5.db.seats, s.id = 3) ∧
        3 ∉ booked_seat_ids_for_key exSys5.db 1 1)) :=
  ⟨rfl, get_available_seats_on_miss exSys5 1 1 3 rfl⟩

/-! ### C6: validator rule ordering -/

/-- C6: `validate_booking_request` evaluates seat-count bounds, past-show,
booking-cutoff window and seat availability in that fixed order, the first
failing rule determining the reported error: a seat-count violation reports
`invalid_seat_count` whatever the other rules would say (in particular when the
cutoff window is also violated), a past-show date reports `past_show` only once
the count is in bounds, a violated cutoff reports `booking_window_expired` only
once count and date pass, and unavailable seats report `seats_unavailable` only
once all three earlier rules pass. -/
theorem validate_booking_request_order (sys : Sys) (seats : List Nat) (sd : ShowDetail)
    (show_date now : Nat) :
    (¬ (MIN_SEATS_PER_BOOKING ≤ seats.length ∧ seats.length ≤ MAX_SEATS_PER_BOOKING) →
      (validate_booking_request sys seats sd show_date now).1 = .error .invalid_seat_count) ∧
    ((MIN_SEATS_PER_BOOKING ≤ seats.length ∧ seats.length ≤ MAX_SEATS_PER_BOOKING) →
      show_date < now / 1440 →
      (validate_booking_request sys seats sd show_date now).1 = .error .past_show) ∧
    ((MIN_SEATS_PER_BOOKING ≤ seats.length ∧ seats.length ≤ MAX_SEATS_PER_BOOKING) →
      ¬ show_date < now / 1440 →
      (show_date * 1440 + sd.start_time : Int) - (now : Int) < 60 * MIN_BOOKING_HOURS_BEFORE →
      (validate_booking_request sys seats sd show_date now).1 = .error .booking_window_expired) ∧
    ((MIN_SEATS_PER_BOOKING ≤ seats.length ∧ seats.length ≤ MAX_SEATS_PER_BOOKING) →
      ¬ show_date < now / 1440 →
      ¬ ((show_date * 1440 + sd.start_time : Int) - (now : Int) < 60 * MIN_BOOKING_HOURS_BEFORE) →
      ¬ (seats.all (fun seat_id =>
        (values_list_id sys.db (get_available_seats sys sd.id show_date).1).contains seat_id)) →
      (validate_booking_request sys seats sd show_date now).1 = .error .seats_unavailable) := by
  refine ⟨fun h1 => ?_, fun h1 h2 => ?_, fun h1 h2 h3 => ?_, fun h1 h2 h3 h4 => ?_⟩
  · simp only [validate_booking_request, if_pos h1]
  · simp only [validate_booking_request, if_neg (not_not_intro h1), if_pos h2]
  · simp only [validate_booking_request, if_neg (not_not_intro h1), if_neg h2, if_pos h3]
  · simp only [validate_booking_request, if_neg (not_not_intro h1), if_neg h2, if_neg h3,
      if_pos h4]

/-- Witness for `validate_booking_request_order`: an eleven-seat request whose
cutoff window is also violated (show at minute 600 of day 1, `now` one hour
before it) reports `invalid_seat_count`, the first rule's error. -/
theorem validate_booking_request_order_witness :
    ¬ (MIN_SEATS_PER_BOOKING ≤ (List.replicate 11 1).length ∧
        (List.replicate 11 1).length ≤ MAX_SEATS_PER_BOOKING) ∧
    ((1 * 1440 + exShow.start_time : Int) - ((1980 : Nat) : Int) <
      60 * MIN_BOOKING_HOURS_BEFORE) ∧
    (validate_booking_request exSys (List.replicate 11 1) exShow 1 1980).1 =
      .error .invalid_seat_count :=
  ⟨by decide, by decide,
    (validate_booking_request_order exSys (List.replicate 11 1) exShow 1 1980).1 (by decide)⟩

/-! ### C9 and C10: the pricing calculator -/

/-- The running `total += price-or-0` fold of `calculate_total_price` computes
the spec sum whenever every price lookup succeeds. -/
theorem foldl_price_eq_of_sum_prices_spec (look : String → Option Nat) :
    ∀ (l : List String) (t a : Nat), sum_prices_spec look l = some t →
      l.foldl (fun total st => total + (look st).getD 0) a = a + t := by
  intro l
  induction l with
  | nil =>
      intro t a h
      simp only [sum_prices_spec, Option.some.injEq] at h
      simp [← h]
  | cons st rest ih =>
      intro t a h
      simp only [sum_prices_spec] at h
      cases hl : look st with
      | none => rw [hl] at h; exact absurd h (by simp)
      | some p =>
          rw [hl] at h
          cases hr : sum_prices_spec look rest with
          | none => rw [hr] at h; exact absurd h (by simp)
          | some t2 =>
              rw [hr] at h
              simp only [Option.some.injEq] at h
              subst h
              simp only [List.foldl_cons, hl, Option.getD_some]
              rw [ih t2 (a + p) hr]
              omega

/-- C9 (amended): `calculate_total_price(seat_ids, show_id)` agrees with the
spec-modelled `calculate_total` whenever the latter succeeds — that is,
whenever every requested seat's seat type has a configured `ShowPrice` for the
show, the code's result equals the sum over the (distinct, existing) requested
seats of their seat type's price.  When some seat's type has no configured
price, `calculate_total_spec` reports the spec's `MissingPrice` as `none`, but
the code never fails: it silently prices that seat as 0
(`c9_missing_price_silently_zero`). -/
theorem calculate_total_price_eq_spec (db : DB) (seats : List Nat) (show_id t : Nat)
    (h : calculate_total_spec db seats show_id = some t) :
    calculate_total_price db seats show_id = t := by
  simp only [calculate_total_spec] at h
  simp only [calculate_total_price]
  have := foldl_price_eq_of_sum_prices_spec (price_lookup db show_id)
    ((db.seats.filter (fun s => decide (s.id ∈ seats))).map (fun s => seat_type_label db s.type_id))
    t 0 h
  simpa using this

/-- Witness for `calculate_total_price_eq_spec`: in the provisioned state both
PLATINUM seats are priced, the spec total of seats 1 and 2 is 200, and the code
computes 200. -/
theorem calculate_total_price_eq_spec_witness :
    calculate_total_spec exDB [1, 2] 1 = some 200 ∧
    calculate_total_price exDB [1, 2] 1 = 200 :=
  ⟨by decide, calculate_total_price_eq_spec exDB [1, 2] 1 200 (by decide)⟩

/-- C9: counterexample to the claim as stated.  With the show's price table
empty, seat 1's seat type has no configured `ShowPrice`, the spec-modelled
calculator reports `MissingPrice` (`none`) — yet `calculate_total_price`
returns 0 rather than failing, and the booking endpoint commits a booking with
`total_amount = 0`: the missing price is not surfaced as an error. -/
theorem c9_missing_price_silently_zero :
    calculate_total_price { exDB with showPrices := [] } [1] 1 = 0 ∧
    calculate_total_spec { exDB with showPrices := [] } [1] 1 = none ∧
    (booking { db := { exDB with showPrices := [] }, cache := [] } 1 1 [1] 1 0).1 =
      .ok { id := 2, user_id := 1, showtime_id := 1, booked_show_id := none,
            seats := [1], total_amount := 0 } := by
  decide

/-- C10: `calculate_total_price` is invariant under duplicate seat ids — the
`id__in` filter matches each stored seat row once however many times its id
occurs in the request, so the total over any list equals the total over its
distinct ids — while `validate_booking_request`'s seat-count rule counts
duplicated entries: eleven copies of one seat id already trip the
`MAX_SEATS_PER_BOOKING = 10` bound. -/
theorem calculate_total_price_dedup_invariant :
    (∀ (db : DB) (seats : List Nat) (show_id : Nat),
      calculate_total_price db seats show_id = calculate_total_price db seats.dedup show_id) ∧
    (∀ (sys : Sys) (sd : ShowDetail) (show_date now s : Nat),
      (validate_booking_request sys (List.replicate 11 s) sd show_date now).1 =
        .error .invalid_seat_count) := by
  constructor
  · intro db seats show_id
    simp only [calculate_total_price]
    congr 2
    apply List.filter_congr
    intro s _
    simp [List.mem_dedup]
  · intro sys sd show_date now s
    have h : ¬ (MIN_SEATS_PER_BOOKING ≤ (List.replicate 11 s).length ∧
        (List.replicate 11 s).length ≤ MAX_SEATS_PER_BOOKING) := by
      simp [MIN_SEATS_PER_BOOKING, MAX_SEATS_PER_BOOKING]
    simp only [validate_booking_request, if_pos h]

/-! ### C7: show creation seeds the per-date ledger -/

/-- C7: creating a `ShowDetail` whose screen exists and whose dates satisfy
`start_date ≤ end_date` (the serializer's validation) creates exactly one
`BookedShowDetail` row per calendar day of the inclusive range — the rows
carrying the new show's id have show_dates `start_date, start_date + 1, ...,
end_date` in order, which lists each day exactly once — each initialized to the
screen's `total_seat`, and sets the new show's denormalized `available_seats`
to the screen's `total_seat`.  The freshness hypothesis `h3` says no
pre-existing ledger row already carries the id the store hands to the new
show. -/
theorem show_detail_save_spec (db : DB) (inp : ShowDetailInput) (scr : Screen)
    (h1 : db.screens.find? (fun s => decide (s.id = inp.screen_id)) = some scr)
    (h2 : inp.start_date ≤ inp.end_date)
    (h3 : ∀ r ∈ db.bookedShowDetails, r.show_detail_id ≠ db.nextId) :
    (show_detail_save db inp).2.available_seats = scr.total_seat ∧
    (((show_detail_save db inp).1.bookedShowDetails.filter
        (fun r => decide (r.show_detail_id = (show_detail_save db inp).2.id))).map
      (fun r => r.show_date)) =
      (List.range (inp.end_date - inp.start_date + 1)).map (fun day => inp.start_date + day) ∧
    (∀ r ∈ (show_detail_save db inp).1.bookedShowDetails,
      r.show_detail_id = (show_detail_save db inp).2.id → r.available_seats = scr.total_seat) := by
  have hn : (((inp.end_date : Int) - (inp.start_date : Int)) + 1).toNat =
      inp.end_date - inp.start_date + 1 := by omega
  refine ⟨by simp [show_detail_save, h1], ?_, ?_⟩
  · simp only [show_detail_save, h1, Option.map_some', Option.getD_some, List.filter_append]
    have hold : db.bookedShowDetails.filter (fun r => decide (r.show_detail_id = db.nextId)) = [] := by
      rw [List.filter_eq_nil_iff]
      intro r hr
      simpa using h3 r hr
    rw [hold, List.nil_append, hn]
    have hnew : ∀ (n : Nat),
        (((List.range n).map (fun day =>
            BookedShowDetail.mk 0 db.nextId (inp.start_date + day) scr.total_seat)).filter
          (fun r => decide (r.show_detail_id = db.nextId))).map (fun r => r.show_date) =
        (List.range n).map (fun day => inp.start_date + day) := by
      intro n
      rw [List.filter_eq_self.mpr]
      · simp
      · intro r hr
        obtain ⟨day, _, rfl⟩ := List.mem_map.mp hr
        simp
    exact hnew _
  · intro r hr hid
    simp only [show_detail_save, h1, Option.map_some', Option.getD_some] at hr hid
    rcases List.mem_append.mp hr with hmem | hmem
    · exact absurd hid (h3 r hmem)
    · obtain ⟨day, _, rfl⟩ := List.mem_map.mp hmem
      rfl

/-- Witness for `show_detail_save_spec`: creating a show on screen 1 over days
5..7 yields ledger rows dated 5, 6, 7, each seeded with the screen's 2 seats,
and a show whose `available_seats` snapshot is 2. -/
theorem show_detail_save_spec_witness :
    (show_detail_save exDB (ShowDetailInput.mk 1 1 600 780 5 7 [("PLATINUM", 100)])).2.available_seats =
      exScreen.total_seat ∧
    (((show_detail_save exDB (ShowDetailInput.mk 1 1 600 780 5 7 [("PLATINUM", 100)])).1.bookedShowDetails.filter
        (fun r => decide (r.show_detail_id =
          (show_detail_save exDB (ShowDetailInput.mk 1 1 600 780 5 7 [("PLATINUM", 100)])).2.id))).map
      (fun r => r.show_date)) =
      (List.range (7 - 5 + 1)).map (fun day => 5 + day) ∧
    (∀ r ∈ (show_detail_save exDB (ShowDetailInput.mk 1 1 600 780 5 7 [("PLATINUM", 100)])).1.bookedShowDetails,
      r.show_detail_id = (show_detail_save exDB (ShowDetailInput.mk 1 1 600 780 5 7 [("PLATINUM", 100)])).2.id →
        r.available_seats = exScreen.total_seat) :=
  show_detail_save_spec exDB (ShowDetailInput.mk 1 1 600 780 5 7 [("PLATINUM", 100)]) exScreen
    (by decide) (by decide) (by decide)

/-! ### C8: screen creation -/

/-- Folding the assignment steps of `order_seat_types` never changes the list
length. -/
theorem foldl_setOrder_length (l : List SeatTypeDict) (acc : List SeatTypeDict) :
    (l.foldl setOrder acc).length = acc.length := by
  induction l generalizing acc with
  | nil => rfl
  | cons t rest ih =>
      simp only [List.foldl_cons]
      rw [ih]
      simp [setOrder]

/-- Assignments whose target index differs from `i` commute with a pending
write at `i`. -/
theorem foldl_setOrder_set_comm (l : List SeatTypeDict) (acc : List SeatTypeDict)
    (i : Nat) (v : SeatTypeDict) (h : ∀ t ∈ l, t.order - 1 ≠ i) :
    l.foldl setOrder (acc.set i v) = (l.foldl setOrder acc).set i v := by
  induction l generalizing acc with
  | nil => rfl
  | cons t rest ih =>
      simp only [List.foldl_cons, setOrder]
      rw [List.set_comm _ _ _ (Ne.symm (h t (List.mem_cons_self t rest)))]
      exact ih (acc.set (t.order - 1) t) (fun s hs => h s (List.mem_cons_of_mem t hs))

/-- Setting an in-range index acts on the left part of an append. -/
theorem set_append_of_lt {α : Type} (l1 l2 : List α) (i : Nat) (v : α) (h : i < l1.length) :
    (l1 ++ l2).set i v = l1.set i v ++ l2 := by
  induction l1 generalizing i with
  | nil => simp at h
  | cons a t ih =>
      cases i with
      | zero => rfl
      | succ n =>
          simp only [List.cons_append, List.set_cons_succ]
          rw [ih n (by simpa using h)]

/-- Assignments landing strictly inside the prefix leave an appended last cell
untouched. -/
theorem foldl_setOrder_append_last (l : List SeatTypeDict) (acc : List SeatTypeDict)
    (x : SeatTypeDict) (h : ∀ t ∈ l, t.order - 1 < acc.length) :
    l.foldl setOrder (acc ++ [x]) = (l.foldl setOrder acc) ++ [x] := by
  induction l generalizing acc with
  | nil => rfl
  | cons t rest ih =>
      simp only [List.foldl_cons, setOrder]
      rw [set_append_of_lt _ _ _ _ (h t (List.mem_cons_self t rest))]
      exact ih (acc.set (t.order - 1) t)
        (fun s hs => by rw [List.length_set]; exact h s (List.mem_cons_of_mem t hs))

/-- Setting the cell right after a prefix replaces an appended last element. -/
theorem set_append_length {α : Type} (l : List α) (x v : α) :
    (l ++ [x]).set l.length v = l ++ [v] := by
  induction l with
  | nil => rfl
  | cons a t ih =>
      simp only [List.cons_append, List.length_cons, List.set_cons_succ]
      rw [ih]

/-- When the order indices of the configurations form (in any arrangement) the
contiguous sequence `1..N`, `order_seat_types` permutes its input: every slot of
the pre-sized list is written exactly once, so the output lists exactly the
input configurations. -/
theorem order_seat_types_perm (ts : List SeatTypeDict)
    (h : List.Perm (ts.map (fun t => t.order)) ((List.range ts.length).map (fun i => i + 1))) :
    List.Perm (order_seat_types ts) ts := by
  suffices H : ∀ (n : Nat) (l : List SeatTypeDict), l.length = n →
      List.Perm (l.map (fun t => t.order)) ((List.range n).map (fun i => i + 1)) →
      List.Perm (order_seat_types l) l by
    exact H ts.length ts rfl (by simpa using h)
  intro n
  induction n with
  | zero =>
      intro l hlen _
      rw [List.length_eq_zero.mp hlen]
      exact List.Perm.refl _
  | succ n ih =>
      intro l hlen hperm
      have hmem : n + 1 ∈ l.map (fun t => t.order) := by
        rw [hperm.mem_iff]
        exact List.mem_map.mpr ⟨n, List.mem_range.mpr (by omega), rfl⟩
      obtain ⟨t, ht, hto⟩ := List.mem_map.mp hmem
      obtain ⟨l1, l2, rfl⟩ := List.append_of_mem ht
      have hnodup : (((List.range (n + 1)).map (fun i => i + 1))).Nodup :=
        (List.nodup_range (n + 1)).map (fun a b hab => by omega)
      have hcount1 : ((l1 ++ t :: l2).map (fun t => t.order)).count (n + 1) = 1 := by
        rw [hperm.count_eq]
        exact List.count_eq_one_of_mem hnodup
          (List.mem_map.mpr ⟨n, List.mem_range.mpr (by omega), rfl⟩)
      have hno1 : (n + 1) ∉ l1.map (fun t => t.order) ∧ (n + 1) ∉ l2.map (fun t => t.order) := by
        rw [List.map_append, List.map_cons, hto] at hcount1
        simp only [List.count_append, List.count_cons_self] at hcount1
        constructor
        · rw [← List.count_eq_zero]
          omega
        · rw [← List.count_eq_zero]
          omega
      have hbound : ∀ s ∈ l1 ++ l2, 1 ≤ s.order ∧ s.order ≤ n + 1 := by
        intro s hs
        have hmem2 : s.order ∈ (l1 ++ t :: l2).map (fun t => t.order) := by
          rcases List.mem_append.mp hs with h1 | h1
          · exact List.mem_map.mpr ⟨s, List.mem_append.mpr (Or.inl h1), rfl⟩
          · exact List.mem_map.mpr ⟨s, List.mem_append.mpr (Or.inr (List.mem_cons_of_mem t h1)), rfl⟩
        rw [hperm.mem_iff] at hmem2
        obtain ⟨i, hi, hio⟩ := List.mem_map.mp hmem2
        rw [List.mem_range] at hi
        omega
      have hne : ∀ s ∈ l1 ++ l2, s.order ≠ n + 1 := by
        intro s hs hcon
        rcases List.mem_append.mp hs with h1 | h1
        · exact hno1.1 (List.mem_map.mpr ⟨s, h1, hcon⟩)
        · exact hno1.2 (List.mem_map.mpr ⟨s, h1, hcon⟩)
      have hlt : ∀ s ∈ l1 ++ l2, s.order - 1 < n := by
        intro s hs
        have h1 := hbound s hs
        have h2 := hne s hs
        omega
      have hlen12 : (l1 ++ l2).length = n := by
        simp only [List.length_append, List.length_cons] at hlen ⊢
        omega
      have key : order_seat_types (l1 ++ t :: l2) = order_seat_types (l1 ++ l2) ++ [t] := by
        unfold order_seat_types
        have hlenR : (l1 ++ t :: l2).length = n + 1 := hlen
        rw [hlenR, hlen12, List.replicate_succ']
        rw [List.foldl_append, List.foldl_cons]
        have hstep : setOrder (l1.foldl setOrder (List.replicate n emptySeatTypeDict ++ [emptySeatTypeDict])) t =
            (l1.foldl setOrder (List.replicate n emptySeatTypeDict ++ [emptySeatTypeDict])).set n t := by
          simp [setOrder, hto]
        rw [hstep]
        rw [foldl_setOrder_set_comm l2 _ n t
          (fun s hs => by have := hlt s (List.mem_append.mpr (Or.inr hs)); omega)]
        rw [← List.foldl_append]
        rw [foldl_setOrder_append_last (l1 ++ l2) _ emptySeatTypeDict
          (fun s hs => by rw [List.length_replicate]; exact hlt s hs)]
        have hplen : ((l1 ++ l2).foldl setOrder (List.replicate n emptySeatTypeDict)).length = n := by
          rw [foldl_setOrder_length, List.length_replicate]
        have hlast := set_append_length
          ((l1 ++ l2).foldl setOrder (List.replicate n emptySeatTypeDict)) emptySeatTypeDict t
        rw [hplen] at hlast
        exact hlast
      have hperm2 : List.Perm ((l1 ++ l2).map (fun t => t.order))
          ((List.range n).map (fun i => i + 1)) := by
        have h1 : List.Perm ((l1 ++ t :: l2).map (fun t => t.order))
            ((n + 1) :: (l1 ++ l2).map (fun t => t.order)) := by
          rw [List.map_append, List.map_cons, hto, List.map_append]
          exact List.perm_middle
        have h2 : List.Perm ((List.range (n + 1)).map (fun i => i + 1))
            ((n + 1) :: (List.range n).map (fun i => i + 1)) := by
          rw [List.range_succ, List.map_append]
          exact List.perm_append_singleton _ _
        exact ((h1.symm.trans hperm).trans h2).cons_inv
      have ihp := ih (l1 ++ l2) hlen12 hperm2
      rw [key]
      exact (ihp.append_right [t]).trans
        ((List.perm_append_singleton t (l1 ++ l2)).trans List.perm_middle.symm)

/-- One seat-type block creates `rows * columns` seats. -/
theorem seats_for_type_length (rows0 : Nat) (st : SeatTypeDict) :
    (seats_for_type rows0 st).length = st.rows * st.columns := by
  simp only [seats_for_type, List.length_flatten, List.map_map]
  simp only [Function.comp_def, List.length_map]
  simp only [List.length_range, List.map_const', List.length_range', List.sum_replicate,
    smul_eq_mul]

/-- The accumulated `total_seat` of the seat-creation loop is the sum of
`rows * columns` over the processed configurations. -/
theorem create_screen_loop_total (rows0 : Nat) (ts : List SeatTypeDict) :
    (create_screen_loop rows0 ts).2 = (ts.map (fun t => t.rows * t.columns)).sum := by
  induction ts generalizing rows0 with
  | nil => rfl
  | cons t rest ih => simp [create_screen_loop, ih]

/-- The seat-creation loop creates exactly `sum of rows * columns` seat rows. -/
theorem create_screen_loop_length (rows0 : Nat) (ts : List SeatTypeDict) :
    (create_screen_loop rows0 ts).1.length = (ts.map (fun t => t.rows * t.columns)).sum := by
  induction ts generalizing rows0 with
  | nil => rfl
  | cons t rest ih => simp [create_screen_loop, seats_for_type_length, ih]

/-- Row range of one seat-type block entered with row counter `rows0`: the
created rows are `rows0 + i` for `i ∈ [rows0, rows0 + st.rows)`, i.e. the
half-open interval `[2 * rows0, 2 * rows0 + st.rows)`. -/
theorem seats_for_type_row_mem (rows0 : Nat) (st : SeatTypeDict) (s : CreatedSeat)
    (hs : s ∈ seats_for_type rows0 st) :
    2 * rows0 ≤ s.row ∧ s.row < 2 * rows0 + st.rows := by
  simp only [seats_for_type, List.mem_flatten, List.mem_map] at hs
  obtain ⟨block, ⟨i, hi, rfl⟩, hsb⟩ := hs
  obtain ⟨j, hj, rfl⟩ := List.mem_map.mp hsb
  rw [List.mem_range'_1] at hi
  simp only
  omega

/-- All seats created from row counter `rows0` onwards sit at row `2 * rows0`
or below. -/
theorem create_screen_loop_row_lb (rows0 : Nat) (ts : List SeatTypeDict) (s : CreatedSeat)
    (hs : s ∈ (create_screen_loop rows0 ts).1) : 2 * rows0 ≤ s.row := by
  induction ts generalizing rows0 with
  | nil => simp [create_screen_loop] at hs
  | cons t rest ih =>
      simp only [create_screen_loop, List.mem_append] at hs
      rcases hs with h1 | h1
      · exact (seats_for_type_row_mem rows0 t s h1).1
      · have := ih (rows0 + t.rows) h1
        omega

/-- Within one seat-type block, (row, column) pairs are pairwise distinct:
distinct `i` give distinct rows, and for the same `i` the columns `j + 1`
are distinct. -/
theorem seats_for_type_pairwise (rows0 : Nat) (st : SeatTypeDict) :
    (seats_for_type rows0 st).Pairwise (fun a b => a.row ≠ b.row ∨ a.col ≠ b.col) := by
  unfold seats_for_type
  rw [List.pairwise_flatten]
  constructor
  · intro l hl
    obtain ⟨i, hi, rfl⟩ := List.mem_map.mp hl
    rw [List.pairwise_map]
    refine (List.pairwise_lt_range st.columns).imp ?_
    intro a b hab
    right
    simp only
    omega
  · rw [List.pairwise_map]
    refine (List.pairwise_lt_range' rows0 st.rows).imp ?_
    intro i1 i2 h12 x hx y hy
    obtain ⟨j1, hj1, rfl⟩ := List.mem_map.mp hx
    obtain ⟨j2, hj2, rfl⟩ := List.mem_map.mp hy
    left
    simp only
    omega

/-- All seats created by the loop have pairwise distinct (row, column): blocks
are internally distinct and later blocks start strictly below earlier ones. -/
theorem create_screen_loop_pairwise (rows0 : Nat) (ts : List SeatTypeDict) :
    (create_screen_loop rows0 ts).1.Pairwise (fun a b => a.row ≠ b.row ∨ a.col ≠ b.col) := by
  induction ts generalizing rows0 with
  | nil => exact List.Pairwise.nil
  | cons t rest ih =>
      simp only [create_screen_loop]
      rw [List.pairwise_append]
      refine ⟨seats_for_type_pairwise rows0 t, ih (rows0 + t.rows), ?_⟩
      intro a ha b hb
      have h1 := seats_for_type_row_mem rows0 t a ha
      have h2 := create_screen_loop_row_lb (rows0 + t.rows) rest b hb
      left
      omega

/-- C8 (amended): for a screen created from configurations whose order indices
are a contiguous `1..N` sequence, the screen's `total_seat` equals the sum over
seat types of `rows * columns`, exactly that many `Seat` rows are created, and
(row, column) is unique among the created seats.  The rows are however not
laid out contiguously starting at row 1: a block entered with row counter `r`
occupies rows `2 * r` to `2 * r + rows - 1` (`seats_for_type_row_mem`), so the
first block starts at row 2 and consecutive blocks leave gaps
(`c8_rows_do_not_start_at_one`). -/
theorem create_screen_with_seats_spec (screen_number : Nat) (ts : List SeatTypeDict)
    (h : List.Perm (ts.map (fun t => t.order)) ((List.range ts.length).map (fun i => i + 1))) :
    (create_screen_with_seats screen_number (order_seat_types ts)).1.total_seat =
      (ts.map (fun t => t.rows * t.columns)).sum ∧
    (create_screen_with_seats screen_number (order_seat_types ts)).2.length =
      (ts.map (fun t => t.rows * t.columns)).sum ∧
    (create_screen_with_seats screen_number (order_seat_types ts)).2.Pairwise
      (fun a b => a.row ≠ b.row ∨ a.col ≠ b.col) := by
  have hp := order_seat_types_perm ts h
  have hsum : ((order_seat_types ts).map (fun t => t.rows * t.columns)).sum =
      (ts.map (fun t => t.rows * t.columns)).sum := (hp.map _).sum_eq
  refine ⟨?_, ?_, ?_⟩
  · rw [show (create_screen_with_seats screen_number (order_seat_types ts)).1.total_seat =
        (create_screen_loop 1 (order_seat_types ts)).2 from rfl]
    rw [create_screen_loop_total]
    exact hsum
  · rw [show (create_screen_with_seats screen_number (order_seat_types ts)).2 =
        (create_screen_loop 1 (order_seat_types ts)).1 from rfl]
    rw [create_screen_loop_length]
    exact hsum
  · exact create_screen_loop_pairwise 1 (order_seat_types ts)

/-- Witness for `create_screen_with_seats_spec`: two configurations given out
of order with contiguous orders 2, 1 yield a screen of `1*2 + 1*1 = 3` seats,
3 created seat rows, and pairwise distinct (row, column). -/
theorem create_screen_with_seats_spec_witness :
    (create_screen_with_seats 7 (order_seat_types
        [SeatTypeDict.mk "GOLD" 1 2 2, SeatTypeDict.mk "PLATINUM" 1 1 1])).1.total_seat =
      (([SeatTypeDict.mk "GOLD" 1 2 2, SeatTypeDict.mk "PLATINUM" 1 1 1].map
        (fun t => t.rows * t.columns)).sum) ∧
    (create_screen_with_seats 7 (order_seat_types
        [SeatTypeDict.mk "GOLD" 1 2 2, SeatTypeDict.mk "PLATINUM" 1 1 1])).2.length =
      (([SeatTypeDict.mk "GOLD" 1 2 2, SeatTypeDict.mk "PLATINUM" 1 1 1].map
        (fun t => t.rows * t.columns)).sum) ∧
    (create_screen_with_seats 7 (order_seat_types
        [SeatTypeDict.mk "GOLD" 1 2 2, SeatTypeDict.mk "PLATINUM" 1 1 1])).2.Pairwise
      (fun a b => a.row ≠ b.row ∨ a.col ≠ b.col) :=
  create_screen_with_seats_spec 7
    [SeatTypeDict.mk "GOLD" 1 2 2, SeatTypeDict.mk "PLATINUM" 1 1 1] (by decide)

/-- C8: counterexample to the claim as stated.  A single one-row one-column
configuration with order 1 (a contiguous `1..1` sequence) creates its only
seat at row 2 — `row = rows + i` is evaluated with `i` already starting at
`rows = 1` — so no seat sits at row 1 and the claimed layout "rows laid out
contiguously across types starting at row 1" is false. -/
theorem c8_rows_do_not_start_at_one :
    ((create_screen_with_seats 1 (order_seat_types [SeatTypeDict.mk "PLATINUM" 1 1 1])).2.map
      (fun s => s.row) = [2]) ∧
    (∀ s ∈ (create_screen_with_seats 1 (order_seat_types [SeatTypeDict.mk "PLATINUM" 1 1 1])).2,
      s.row ≠ 1) := by
  decide

end Theater
